import Mathlib

/-!
Shallow embedding of the excel_report pipeline
(src/task_manager/excel_report/importer.py and analyzer.py).

Conventions of the embedding:
* Python cell values are the tagged variant `CellValue` (None, bool, int,
  float, str, date, time, datetime).  Python `float` is embedded as `ℚ`
  (all arithmetic in the verified claims is exact in that fragment).
* Python strings are Lean `String`s; `str.strip`, `str.replace(c, "")`,
  `str.rstrip(c)` are implemented over `List Char` so that proofs are plain
  list reasoning.  Whitespace is the ASCII whitespace set.
* The `re` patterns of importer.py are compiled by hand into executable
  matchers over `List Char`; each matcher is documented with the pattern it
  implements and is equivalent to the pattern's full-match semantics.
* Non-finite float literals ("inf", "nan") are outside the modelled
  fragment of `float(...)`; no verified claim exercises them.
-/

namespace ExcelReport

/-- ASCII whitespace, the fragment of Python `str.strip` / `\s` used here. -/
def isPyWs (c : Char) : Bool :=
  c = ' ' || c = '\t' || c = '\n' || c = '\r' || c = '\x0b' || c = '\x0c'

def isDigitC (c : Char) : Bool := '0' ≤ c && c ≤ '9'

def isAsciiLetter (c : Char) : Bool :=
  ('a' ≤ c && c ≤ 'z') || ('A' ≤ c && c ≤ 'Z')

/-- Python `str.strip()` on the char list. -/
def pyStripList (cs : List Char) : List Char :=
  ((cs.dropWhile isPyWs).reverse.dropWhile isPyWs).reverse

/-- Python `str.rstrip(c)` (removes every trailing occurrence of `c`). -/
def rstripChar (c : Char) (cs : List Char) : List Char :=
  (cs.reverse.dropWhile (· = c)).reverse

/-- Numeric value of a decimal digit run. -/
def digitsVal (ds : List Char) : Nat :=
  ds.foldl (fun a c => 10 * a + (c.toNat - 48)) 0

/-- A Python digit run with underscore grouping: `d (d | _ d)*`, first digit
already checked by the caller.  Returns the digits (underscores removed)
and the unconsumed rest. -/
def digitsUAux : List Char → (List Char × List Char)
  | [] => ([], [])
  | [c] => if isDigitC c then ([c], []) else ([], [c])
  | c :: d :: cs =>
    if isDigitC c then
      let p := digitsUAux (d :: cs)
      (c :: p.1, p.2)
    else if c = '_' then
      if isDigitC d then
        let p := digitsUAux cs
        (d :: p.1, p.2)
      else ([], c :: d :: cs)
    else ([], c :: d :: cs)

/-- Parse a nonempty underscore-grouped digit run; `none` if the input does
not start with a digit. -/
def parseDigitsU (cs : List Char) : Option (List Char × List Char) :=
  match cs with
  | c :: _ => if isDigitC c then some (digitsUAux cs) else none
  | [] => none

/-- Python `int(s)`: optional surrounding whitespace, optional sign, a
digit run with underscore grouping, nothing else. -/
def pyInt? (cs0 : List Char) : Option Int :=
  match pyStripList cs0 with
  | [] => Option.none
  | c :: r =>
    let sign : Int := if c = '-' then -1 else 1
    let body := if c = '+' || c = '-' then r else c :: r
    match parseDigitsU body with
    | some (ds, []) => some (sign * (digitsVal ds : Int))
    | _ => Option.none

/-- The fraction part `[. [D]]` after the integer digits `ds` of a float
literal's mantissa. -/
def parseFrac (ds rest : List Char) : Option (List Char × List Char × List Char) :=
  match rest with
  | [] => some (ds, [], [])
  | r0 :: r2 =>
    if r0 = '.' then
      match parseDigitsU r2 with
      | some (fs, rest2) => some (ds, fs, rest2)
      | Option.none => some (ds, [], r2)
    else some (ds, [], r0 :: r2)

/-- Mantissa of a Python float literal: `D [. [D]] | . D` with `D` an
underscore-grouped digit run.  Returns integer digits, fraction digits and
the unconsumed rest. -/
def parseMantissa (cs : List Char) : Option (List Char × List Char × List Char) :=
  match cs with
  | [] => Option.none
  | c :: r =>
    if c = '.' then
      match parseDigitsU r with
      | some (ds, rest) => some ([], ds, rest)
      | Option.none => Option.none
    else
      match parseDigitsU (c :: r) with
      | some (ds, rest) => parseFrac ds rest
      | Option.none => Option.none

/-- Optional exponent part `[(e|E) [sign] D]` of a float literal. -/
def parseExpOpt (cs : List Char) : Option (Int × List Char) :=
  match cs with
  | [] => some (0, [])
  | c :: r =>
    if c = 'e' || c = 'E' then
      match r with
      | [] => Option.none
      | r0 :: t =>
        if r0 = '+' then (parseDigitsU t).map (fun p => ((digitsVal p.1 : Int), p.2))
        else if r0 = '-' then (parseDigitsU t).map (fun p => (-(digitsVal p.1 : Int), p.2))
        else (parseDigitsU (r0 :: t)).map (fun p => ((digitsVal p.1 : Int), p.2))
    else some (0, c :: r)

/-- `10 ^ e` over `ℚ` for a signed exponent. -/
def pow10Z (e : Int) : ℚ :=
  if 0 ≤ e then ((10 : ℚ) ^ e.toNat) else 1 / (10 : ℚ) ^ (-e).toNat

/-- Python `float(s)` on finite decimal literals: optional surrounding
whitespace, optional sign, mantissa, optional exponent. -/
def pyFloat? (cs0 : List Char) : Option ℚ :=
  let cs := pyStripList cs0
  let sign : ℚ := if cs.head? = some '-' then -1 else 1
  let body := if cs.head? = some '+' || cs.head? = some '-' then cs.tail else cs
  match parseMantissa body with
  | some (ids, fds, rest) =>
    match parseExpOpt rest with
    | some (ex, []) =>
      some (sign * ((digitsVal ids : ℚ) + (digitsVal fds : ℚ) / (10 : ℚ) ^ fds.length)
        * pow10Z ex)
    | _ => none
  | none => none

/-! ### The regular expressions of importer.py, as executable matchers -/

/-- `PERCENTAGE_PATTERN`: full match of
`-?\d+\.?\d*\s*%` (optional sign, digits, optional decimal, trailing `%`). -/
def matchPercentage (cs : List Char) : Bool :=
  let cs := match cs with | '-' :: r => r | r => r
  let (d1, cs) := cs.span isDigitC
  if d1.isEmpty then false
  else
    let cs := match cs with | '.' :: r => r | r => r
    let (_, cs) := cs.span isDigitC
    let cs := cs.dropWhile isPyWs
    cs = ['%']

def isCurrencySym (c : Char) : Bool :=
  c = '$' || c = '€' || c = '£' || c = '¥' || c = '₹'

/-- The end-anchored `\d[\d,]*\.?\d*` tail of the currency pattern. -/
def currencyDigits (cs : List Char) : Bool :=
  match cs with
  | c :: r =>
    isDigitC c &&
      (let (_, r2) := r.span (fun c => isDigitC c || c = ',')
       let r3 := match r2 with | '.' :: t => t | t => t
       let (_, r4) := r3.span isDigitC
       r4.isEmpty)
  | [] => false

/-- The `[sym]\s*-?\d[\d,]*\.?\d*` alternative of `CURRENCY_PATTERN`. -/
def matchCurrencyFront (cs : List Char) : Bool :=
  match cs with
  | c :: r =>
    isCurrencySym c &&
      (let r := r.dropWhile isPyWs
       let r := match r with | '-' :: t => t | t => t
       currencyDigits r)
  | [] => false

/-- The `-?\d[\d,]*\.?\d*\s*[sym]` alternative of `CURRENCY_PATTERN`. -/
def matchCurrencyBack (cs : List Char) : Bool :=
  let cs := match cs with | '-' :: r => r | r => r
  match cs with
  | c :: r =>
    isDigitC c &&
      (let (_, r2) := r.span (fun c => isDigitC c || c = ',')
       let r3 := match r2 with | '.' :: t => t | t => t
       let (_, r4) := r3.span isDigitC
       let r5 := r4.dropWhile isPyWs
       match r5 with
       | [s] => isCurrencySym s
       | _ => false)
  | [] => false

def isLocalChar (c : Char) : Bool :=
  isAsciiLetter c || isDigitC c || c = '.' || c = '_' || c = '%' || c = '+' || c = '-'

def isDomainChar (c : Char) : Bool :=
  isAsciiLetter c || isDigitC c || c = '.' || c = '-'

/-- `EMAIL_PATTERN`: `[a-zA-Z0-9._%+-]+@[a-zA-Z0-9.-]+\.[a-zA-Z]{2,}`.
Since no character class contains `@`, the separator is the first `@`; and
since the TLD class contains no dot, the matched dot is the last dot of the
domain. -/
def matchEmail (cs : List Char) : Bool :=
  let (localPart, rest) := cs.span (· ≠ '@')
  match rest with
  | '@' :: domain =>
    !localPart.isEmpty && localPart.all isLocalChar &&
      (let revd := domain.reverse
       let (tldRev, rest2) := revd.span (· ≠ '.')
       match rest2 with
       | '.' :: preRev =>
         tldRev.length ≥ 2 && tldRev.all isAsciiLetter &&
           !preRev.isEmpty && preRev.all isDomainChar
       | _ => false)
  | _ => false

/-- `URL_PATTERN` (case-insensitive): `https?://[^\s]+`. -/
def matchUrl (cs : List Char) : Bool :=
  match cs with
  | a :: b :: c :: d :: rest =>
    a.toLower = 'h' && b.toLower = 't' && c.toLower = 't' && d.toLower = 'p' &&
      (let rest := match rest with
        | e :: r => if e.toLower = 's' then r else e :: r
        | [] => []
       match rest with
       | ':' :: '/' :: '/' :: tail => !tail.isEmpty && tail.all (fun c => !isPyWs c)
       | _ => false)
  | _ => false

def isPhoneTailChar (c : Char) : Bool :=
  c = '-' || isPyWs c || c = '.' || c = '/' || isDigitC c

/-- After the leading digit group of the phone pattern: `[)]?[-\s./0-9]{6,}`. -/
def phoneAfterDigits (cs : List Char) : Bool :=
  let cs := match cs with | ')' :: r => r | r => r
  cs.length ≥ 6 && cs.all isPhoneTailChar

/-- `PHONE_PATTERN`: `[\+]?[(]?[0-9]{1,4}[)]?[-\s./0-9]{6,}`; the digit-group
length 1–4 needs backtracking, realised as a bounded search. -/
def matchPhone (cs : List Char) : Bool :=
  let cs := match cs with | '+' :: r => r | r => r
  let cs := match cs with | '(' :: r => r | r => r
  (List.range 4).any (fun k =>
    let pre := cs.take (k + 1)
    pre.length = k + 1 && pre.all isDigitC && phoneAfterDigits (cs.drop (k + 1)))

/-! ### Data model -/

/-- The `DataType` enumeration of importer.py. -/
inductive DataType where
  | INTEGER | FLOAT | PERCENTAGE | CURRENCY | TEXT | BOOLEAN
  | DATE | TIME | DATETIME | EMAIL | URL | PHONE | EMPTY | MIXED
deriving DecidableEq, Repr

/-- Tagged variant for a raw Python cell value as seen by the importer. -/
inductive CellValue where
  | none
  | bool (b : Bool)
  | int (n : Int)
  | float (q : ℚ)
  | str (s : String)
  | date (y m d : Nat)
  | time (h mi s : Nat)
  | datetime (y m d h mi s : Nat)
deriving DecidableEq, Repr

/-- `_detect_cell_type` of importer.py, branch for branch.  The Python
`isinstance` ladder (bool before int, datetime before date) is mirrored by
the distinct constructors. -/
def detect_cell_type : CellValue → DataType
  | .none => .EMPTY
  | .bool _ => .BOOLEAN
  | .int _ => .INTEGER
  | .float _ => .FLOAT
  | .datetime _ _ _ _ _ _ => .DATETIME
  | .date _ _ _ => .DATE
  | .time _ _ _ => .TIME
  | .str v =>
    let stripped := pyStripList v.data
    if stripped.isEmpty then .EMPTY
    else
      let lowered := stripped.map Char.toLower
      if lowered = "true".data || lowered = "false".data
          || lowered = "yes".data || lowered = "no".data then .BOOLEAN
      else if matchPercentage stripped then .PERCENTAGE
      else if matchCurrencyFront stripped || matchCurrencyBack stripped then .CURRENCY
      else if matchEmail stripped then .EMAIL
      else if matchUrl stripped then .URL
      else if matchPhone stripped then .PHONE
      else if (pyInt? (stripped.filter (· ≠ ','))).isSome then .INTEGER
      else if (pyFloat? (stripped.filter (· ≠ ','))).isSome then .FLOAT
      else .TEXT

/-! ### Column type resolution -/

/-- Stable insertion into a descending-by-count list: an element passes a
resident element only when its count is strictly larger, so ties keep
first-come order — the behaviour of Python's stable `sorted(..., key=-count)`. -/
def insertByCountDesc {α : Type} (x : α × Nat) : List (α × Nat) → List (α × Nat)
  | [] => [x]
  | y :: ys => if x.2 > y.2 then x :: y :: ys else y :: insertByCountDesc x ys

/-- Stable sort, descending by count. -/
def sortByCountDesc {α : Type} (l : List (α × Nat)) : List (α × Nat) :=
  l.foldl (fun acc x => insertByCountDesc x acc) []

/-- `_resolve_column_type` of importer.py.  The Python histogram is a dict
keyed by the enum's string value; here it is an insertion-ordered
association list keyed by `DataType` (the key sets are in bijection), with
distinct keys as the importer builds them.  The `count/total >= 0.8` float
test is the exact rational test `5*count ≥ 4*total` (exact for every
histogram with positive total). -/
def resolve_column_type (type_counts : List (DataType × Nat)) : DataType :=
  let non_empty := type_counts.filter (fun kv => kv.1 ≠ DataType.EMPTY)
  if non_empty.length = 0 then .EMPTY
  else if non_empty.length = 1 then (non_empty.headD (.EMPTY, 0)).1
  else
    let keys := non_empty.map Prod.fst
    if keys.contains .INTEGER && keys.contains .FLOAT
        && keys.all (fun k => k = .INTEGER || k = .FLOAT) then .FLOAT
    else if keys.contains .DATE && keys.contains .DATETIME
        && keys.all (fun k => k = .DATE || k = .DATETIME) then .DATETIME
    else
      let total := (non_empty.map Prod.snd).sum
      match (sortByCountDesc non_empty).find? (fun kv => 5 * kv.2 ≥ 4 * total) with
      | some kv => kv.1
      | none => .MIXED

/-! ### Python `str(...)` and `==` on cell values -/

/-- Zero-padded decimal rendering. -/
def padNum (width n : Nat) : String :=
  let s := toString n
  String.mk (List.replicate (width - s.length) '0') ++ s

def isoDate (y m d : Nat) : String :=
  padNum 4 y ++ "-" ++ padNum 2 m ++ "-" ++ padNum 2 d

def isoTime (h mi s : Nat) : String :=
  padNum 2 h ++ ":" ++ padNum 2 mi ++ ":" ++ padNum 2 s

/-- Digits of the fractional part of `q` (`0 ≤ q < 1`), fuelled. -/
def fracDigitsAux : Nat → ℚ → List Char
  | 0, _ => []
  | k + 1, q =>
    if q = 0 then []
    else
      let q10 := q * 10
      let d := q10.floor
      Char.ofNat (48 + d.toNat) :: fracDigitsAux k (q10 - d)

/-- Python `str` of a float, on the fragment of floats whose rational value
has a terminating decimal expansion (every float literal appearing in the
verified claims does).  `2 → "2.0"`, `1/2 → "0.5"`. -/
def floatStr (q : ℚ) : String :=
  let sign := if q < 0 then "-" else ""
  let a := |q|
  let ip := a.floor
  let ds := fracDigitsAux 17 (a - ip)
  if ds.isEmpty then sign ++ toString ip ++ ".0"
  else sign ++ toString ip ++ "." ++ String.mk ds

/-- Python `str(value)` for cell values (`date`/`datetime`/`time` use their
`str` forms; `datetime` has a space separator there, `isoformat` a `T`). -/
def pyStr : CellValue → String
  | .none => "None"
  | .bool b => if b then "True" else "False"
  | .int n => toString n
  | .float q => floatStr q
  | .str s => s
  | .date y m d => isoDate y m d
  | .time h mi s => isoTime h mi s
  | .datetime y m d h mi s => isoDate y m d ++ " " ++ isoTime h mi s

/-- The common numeric value of bool/int/float cells, for Python `==`
(`True == 1 == 1.0`). -/
def numVal : CellValue → Option ℚ
  | .bool b => some (if b then 1 else 0)
  | .int n => some (n : ℚ)
  | .float q => some q
  | _ => Option.none

/-- Python `==` on cell values: numeric kinds compare by value, the rest
compare within their own kind (`datetime(y,m,d) == date(y,m,d)` is False). -/
def pyEq (a b : CellValue) : Bool :=
  match numVal a, numVal b with
  | some x, some y => x = y
  | _, _ =>
    match a, b with
    | .none, .none => true
    | .str x, .str y => x = y
    | .date y1 m1 d1, .date y2 m2 d2 => y1 = y2 && m1 = m2 && d1 = d2
    | .time h1 i1 s1, .time h2 i2 s2 => h1 = h2 && i1 = i2 && s1 = s2
    | .datetime y1 m1 d1 h1 i1 s1, .datetime y2 m2 d2 h2 i2 s2 =>
      y1 = y2 && m1 = m2 && d1 = d2 && h1 = h2 && i1 = i2 && s1 = s2
    | _, _ => false

/-! ### Importer data model -/

/-- openpyxl's `get_column_letter`, bijective base-26: 1 → A, 26 → Z, 27 → AA.
The first argument is fuel for structural recursion; `fuel ≥ n` always
suffices since the index shrinks at least as fast as the fuel. -/
def columnLetterAux : Nat → Nat → List Char → List Char
  | 0, _, acc => acc
  | _ + 1, 0, acc => acc
  | fuel + 1, n + 1, acc =>
    columnLetterAux fuel (n / 26) (Char.ofNat (65 + n % 26) :: acc)

def get_column_letter (n : Nat) : String :=
  String.mk (columnLetterAux n n [])

structure ColumnInfo where
  index : Nat
  letter : String
  header : String
  detected_type : DataType
  non_empty_count : Nat
  empty_count : Nat
  total_count : Nat
  sample_values : List CellValue
  unique_count : Nat
  type_counts : List (DataType × Nat)
deriving DecidableEq, Repr

structure SheetData where
  name : String
  columns : List ColumnInfo
  rows : List (List CellValue)
  headers : List String
  row_count : Nat
  col_count : Nat
deriving DecidableEq, Repr

structure ImportResult where
  file_path : String
  file_name : String
  sheets : List SheetData
  import_time : String
  total_rows : Nat
  total_columns : Nat
deriving DecidableEq, Repr

/-- Increment a key of an insertion-ordered counting map (Python
`d[k] = d.get(k, 0) + 1` on a dict, and `Counter` updates). -/
def bumpCount {α : Type} [DecidableEq α] (k : α) : List (α × Nat) → List (α × Nat)
  | [] => [(k, 1)]
  | (k', c) :: rest => if k = k' then (k', c + 1) :: rest else (k', c) :: bumpCount k rest

/-- Accumulator of the per-column scan loop of `_process_sheet`. -/
structure ColScan where
  non_empty : Nat
  empty : Nat
  samples : List CellValue
  uniques : List CellValue
  type_counts : List (DataType × Nat)
deriving Repr

/-- One iteration of the `for val in col_values` loop: count the detected
type, split empty/non-empty, keep up to 5 samples in encounter order, and
track distinct values under Python `==` (the `set` of the source; its
`str` fallback for unhashable values never fires on cell values). -/
def colScanStep (st : ColScan) (val : CellValue) : ColScan :=
  let ct := detect_cell_type val
  let tc := bumpCount ct st.type_counts
  if ct = .EMPTY then
    { st with empty := st.empty + 1, type_counts := tc }
  else
    { st with
      non_empty := st.non_empty + 1
      type_counts := tc
      samples := if st.samples.length < 5 then st.samples ++ [val] else st.samples
      uniques := if st.uniques.any (pyEq val) then st.uniques else st.uniques ++ [val] }

/-- The per-column body of the type-detection loop of `_process_sheet`. -/
def buildColumn (col_idx : Nat) (header : String)
    (normalized_rows : List (List CellValue)) : ColumnInfo :=
  let col_values := normalized_rows.map (fun r => r.getD col_idx CellValue.none)
  let st := col_values.foldl colScanStep ⟨0, 0, [], [], []⟩
  { index := col_idx
    letter := get_column_letter (col_idx + 1)
    header := header
    detected_type := resolve_column_type st.type_counts
    non_empty_count := st.non_empty
    empty_count := st.empty
    total_count := normalized_rows.length
    sample_values := st.samples
    unique_count := st.uniques.length
    type_counts := st.type_counts }

/-- `list(row) + [None] * (num_cols - len(row))`, then `[:num_cols]`. -/
def padRow (num_cols : Nat) (row : List CellValue) : List CellValue :=
  (row ++ List.replicate (num_cols - row.length) CellValue.none).take num_cols

/-- `ExcelImporter._process_sheet`, with the worksheet already read into its
list of raw rows (`ws.iter_rows(values_only=True)`). -/
def process_sheet (sheet_name : String) (all_rows : List (List CellValue))
    (has_header : Bool) (max_rows : Option Nat) : SheetData :=
  match all_rows with
  | [] =>
    { name := sheet_name, columns := [], rows := [], headers := []
      row_count := 0, col_count := 0 }
  | first :: rest =>
    let raw_headers : Option (List CellValue) :=
      if has_header then some first else Option.none
    let data_rows := if has_header then rest else first :: rest
    let data_rows := match max_rows with
      | some m => data_rows.take m
      | Option.none => data_rows
    let num_cols := ((first :: rest).map List.length).foldr max 0
    let headers := (List.range num_cols).map (fun i =>
      match raw_headers with
      | some hs =>
        -- `raw_headers and i < len(raw_headers) and raw_headers[i] is not None`
        if hs.getD i CellValue.none = CellValue.none
        then "Column_" ++ get_column_letter (i + 1)
        else pyStr (hs.getD i CellValue.none)
      | Option.none => "Column_" ++ get_column_letter (i + 1))
    let normalized_rows := data_rows.map (padRow num_cols)
    { name := sheet_name
      columns := (List.range num_cols).map
        (fun i => buildColumn i (headers.getD i "") normalized_rows)
      rows := normalized_rows
      headers := headers
      row_count := data_rows.length
      col_count := num_cols }

/-- `file_path.rsplit(sep, 1)[-1]`. -/
def afterLastSep (sep : Char) (cs : List Char) : List Char :=
  (cs.reverse.takeWhile (· ≠ sep)).reverse

namespace ExcelImporter

/-- `ExcelImporter.import_file`.  The workbook is its list of
(sheet name, raw rows) pairs; the wall-clock `datetime.now()` of
`ImportResult.__init__` is the explicit `now` argument.  Requested sheet
names absent from the workbook are skipped silently, and a `sheet_names`
argument that is `[]` is falsy in Python, selecting all sheets. -/
def import_file (now : String) (wb : List (String × List (List CellValue)))
    (file_path : String) (sheet_names : Option (List String))
    (has_header : Bool) (max_rows : Option Nat) : ImportResult :=
  let wb_sheetnames := wb.map Prod.fst
  let sheets_to_process := match sheet_names with
    | some l => if l.isEmpty then wb_sheetnames else l
    | Option.none => wb_sheetnames
  let sheets := sheets_to_process.filterMap (fun nm =>
    (wb.find? (fun p => p.1 = nm)).map
      (fun p => process_sheet nm p.2 has_header max_rows))
  { file_path := file_path
    file_name := String.mk (afterLastSep '\\' (afterLastSep '/' file_path.data))
    sheets := sheets
    import_time := now
    total_rows := (sheets.map SheetData.row_count).sum
    total_columns := (sheets.map SheetData.col_count).sum }

end ExcelImporter

/-! ### Analyzer (analyzer.py) -/

/-- `.value` of the `DataType` enum. -/
def DataType.value : DataType → String
  | .INTEGER => "Integer" | .FLOAT => "Float" | .PERCENTAGE => "Percentage"
  | .CURRENCY => "Currency" | .TEXT => "Text" | .BOOLEAN => "Boolean"
  | .DATE => "Date" | .TIME => "Time" | .DATETIME => "DateTime"
  | .EMAIL => "Email" | .URL => "URL" | .PHONE => "Phone"
  | .EMPTY => "Empty" | .MIXED => "Mixed"

/-- `ColumnStats`, with the `__init__` defaults in `ColumnStats.init`.
The source field `std_dev` stores the sample standard deviation
`math.sqrt(variance)`; the square root of a rational is irrational in
general, so the embedding stores its square `std_dev_sq` (the sample
variance, `N−1` denominator).  `x.std_dev = √x.std_dev_sq`; zero-ness,
definedness and nonnegativity — all that the verified claims use — are
preserved exactly by this encoding. -/
structure ColumnStats where
  header : String
  data_type : DataType
  total_count : Nat
  non_empty_count : Nat
  empty_count : Nat
  unique_count : Nat
  completeness : ℚ
  min_val : Option ℚ
  max_val : Option ℚ
  sum_val : Option ℚ
  mean_val : Option ℚ
  median_val : Option ℚ
  std_dev_sq : Option ℚ
  min_length : Option Nat
  max_length : Option Nat
  avg_length : Option ℚ
  top_values : List (String × Nat)
  earliest : Option String
  latest : Option String
  true_count : Nat
  false_count : Nat
  duplicate_count : Nat
  has_outliers : Bool
  outlier_count : Nat
deriving DecidableEq, Repr

def ColumnStats.init (header : String) (data_type : DataType) : ColumnStats where
  header := header
  data_type := data_type
  total_count := 0
  non_empty_count := 0
  empty_count := 0
  unique_count := 0
  completeness := 0
  min_val := Option.none
  max_val := Option.none
  sum_val := Option.none
  mean_val := Option.none
  median_val := Option.none
  std_dev_sq := Option.none
  min_length := Option.none
  max_length := Option.none
  avg_length := Option.none
  top_values := []
  earliest := Option.none
  latest := Option.none
  true_count := 0
  false_count := 0
  duplicate_count := 0
  has_outliers := false
  outlier_count := 0

structure SheetAnalysis where
  sheet_name : String
  row_count : Nat
  col_count : Nat
  column_stats : List ColumnStats
  data_quality_score : ℚ
  type_summary : List (DataType × Nat)
  duplicate_rows : Nat
  completely_empty_rows : Nat
deriving DecidableEq, Repr

structure AnalysisResult where
  file_name : String
  analysis_time : String
  sheets : List SheetAnalysis
  overall_quality_score : ℚ
  total_rows : Nat
  total_columns : Nat
deriving DecidableEq, Repr

/-- `_to_numeric` of analyzer.py: pass numbers through (bools excluded);
for strings strip whitespace, thousands separators, currency symbols and
trailing `%`, then `float(...)`. -/
def to_numeric : CellValue → Option ℚ
  | .int n => some (n : ℚ)
  | .float q => some q
  | .str s =>
    let cleaned := (pyStripList s.data).filter (· ≠ ',')
    let cleaned := cleaned.filter (fun c => !isCurrencySym c)
    let cleaned := pyStripList (rstripChar '%' cleaned)
    pyFloat? cleaned
  | _ => Option.none

/-- Tuple stand-in for `datetime` in `_to_date_sortable`. -/
abbrev DtTuple := Nat × Nat × Nat × Nat × Nat × Nat

/-- `_to_date_sortable`: datetimes pass through, dates become midnight
datetimes, everything else is dropped. -/
def to_date_sortable : CellValue → Option DtTuple
  | .datetime y m d h mi s => some (y, m, d, h, mi, s)
  | .date y m d => some (y, m, d, 0, 0, 0)
  | _ => Option.none

def dtFields (t : DtTuple) : List Nat :=
  [t.1, t.2.1, t.2.2.1, t.2.2.2.1, t.2.2.2.2.1, t.2.2.2.2.2]

/-- Strict lexicographic order on equal-length `Nat` lists. -/
def natListLt : List Nat → List Nat → Bool
  | [], [] => false
  | [], _ :: _ => true
  | _ :: _, [] => false
  | a :: as, b :: bs => if a < b then true else if b < a then false else natListLt as bs

def insertDt (x : DtTuple) : List DtTuple → List DtTuple
  | [] => [x]
  | y :: ys => if natListLt (dtFields x) (dtFields y) then x :: y :: ys else y :: insertDt x ys

/-- `sorted` on datetimes. -/
def sortDt (l : List DtTuple) : List DtTuple := l.foldr insertDt []

/-- `datetime.isoformat()` (T separator, seconds always present). -/
def isoDt (t : DtTuple) : String :=
  isoDate t.1 t.2.1 t.2.2.1 ++ "T" ++ isoTime t.2.2.2.1 t.2.2.2.2.1 t.2.2.2.2.2

/-- `_is_truthy`. -/
def is_truthy : CellValue → Bool
  | .bool b => b
  | .str s =>
    let l := (pyStripList s.data).map Char.toLower
    l = "true".data || l = "yes".data
  | _ => false

/-- Ascending insertion sort on `ℚ` — `sorted(nums)`. -/
def insertAsc (x : ℚ) : List ℚ → List ℚ
  | [] => [x]
  | y :: ys => if x < y then x :: y :: ys else y :: insertAsc x ys

def sortAsc (l : List ℚ) : List ℚ := l.foldr insertAsc []

/-- `Counter(iterable)`: insertion-ordered counts. -/
def counterOf (l : List String) : List (String × Nat) :=
  l.foldl (fun acc s => bumpCount s acc) []

/-- `Counter.most_common(k)`: descending by count, ties in first-encounter
order (Python's sort is stable). -/
def most_common (k : Nat) (counts : List (String × Nat)) : List (String × Nat) :=
  (sortByCountDesc counts).take k

/-- The `lengths` list of `_compute_text_stats`: post-trim lengths of the
non-empty stringified values. -/
def textLengths (values : List CellValue) : List Nat :=
  values.filterMap (fun v =>
    match v with
    | CellValue.none => Option.none
    | v =>
      let s := pyStripList (pyStr v).data
      if s.isEmpty then Option.none else some s.length)

namespace DataAnalyzer

/-- `DataAnalyzer._compute_numeric_stats`. -/
def compute_numeric_stats (stats : ColumnStats) (values : List CellValue) : ColumnStats :=
  let nums := values.filterMap to_numeric
  if nums.isEmpty then stats
  else
    let nums_sorted := sortAsc nums
    let n := nums.length
    let sum_v : ℚ := nums.sum
    let mean_v : ℚ := sum_v / n
    let median_v : ℚ :=
      if n % 2 = 1 then nums_sorted.getD (n / 2) 0
      else (nums_sorted.getD (n / 2 - 1) 0 + nums_sorted.getD (n / 2) 0) / 2
    let variance_v : ℚ :=
      if n > 1 then (nums.map (fun x => (x - mean_v) ^ 2)).sum / ((n : ℚ) - 1)
      else 0
    let base := { stats with
      min_val := some (nums_sorted.getD 0 0)
      max_val := some (nums_sorted.getD (nums_sorted.length - 1) 0)
      sum_val := some sum_v
      mean_val := some mean_v
      median_val := some median_v
      std_dev_sq := some variance_v }
    if n ≥ 4 then
      let q1 := nums_sorted.getD (n / 4) 0
      let q3 := nums_sorted.getD (3 * n / 4) 0
      let iqr := q3 - q1
      let lower_bound := q1 - (3 / 2 : ℚ) * iqr
      let upper_bound := q3 + (3 / 2 : ℚ) * iqr
      let outliers := nums.filter (fun x => x < lower_bound || x > upper_bound)
      { base with outlier_count := outliers.length, has_outliers := outliers.length > 0 }
    else base

/-- `DataAnalyzer._compute_text_stats`. -/
def compute_text_stats (stats : ColumnStats) (values : List CellValue) : ColumnStats :=
  let lengths := textLengths values
  if lengths.isEmpty then stats
  else { stats with
    min_length := lengths.min?
    max_length := lengths.max?
    avg_length := some ((lengths.sum : ℚ) / lengths.length) }

/-- `DataAnalyzer._compute_boolean_stats`. -/
def compute_boolean_stats (stats : ColumnStats) (values : List CellValue) : ColumnStats :=
  values.foldl (fun st v =>
    match v with
    | CellValue.none => st
    | CellValue.str s =>
      if (pyStripList s.data).isEmpty then st
      else if is_truthy (CellValue.str s) then { st with true_count := st.true_count + 1 }
      else { st with false_count := st.false_count + 1 }
    | v =>
      if is_truthy v then { st with true_count := st.true_count + 1 }
      else { st with false_count := st.false_count + 1 }) stats

/-- `DataAnalyzer._compute_date_stats`. -/
def compute_date_stats (stats : ColumnStats) (values : List CellValue) : ColumnStats :=
  let dates := values.filterMap to_date_sortable
  if dates.isEmpty then stats
  else
    let dates_sorted := sortDt dates
    { stats with
      earliest := some (isoDt (dates_sorted.getD 0 (0, 0, 0, 0, 0, 0)))
      latest := some (isoDt (dates_sorted.getD (dates_sorted.length - 1) (0, 0, 0, 0, 0, 0))) }

/-- The type-independent first half of `_analyze_column`: base counts,
completeness, duplicate values and top values. -/
def baseColumnStats (col_info : ColumnInfo) (values : List CellValue) : ColumnStats :=
  let stats0 := ColumnStats.init col_info.header col_info.detected_type
  let stats1 := { stats0 with
    total_count := col_info.total_count
    non_empty_count := col_info.non_empty_count
    empty_count := col_info.empty_count
    unique_count := col_info.unique_count
    completeness :=
      if col_info.total_count > 0
      then (col_info.non_empty_count : ℚ) / (col_info.total_count : ℚ) * 100
      else 0 }
  let non_empty_vals := values.filter (fun v =>
    !(decide (v = CellValue.none)) && !(pyStripList (pyStr v).data).isEmpty)
  let val_counts := counterOf (non_empty_vals.map pyStr)
  { stats1 with
    duplicate_count :=
      ((val_counts.filter (fun kv => kv.2 > 1)).map (fun kv => kv.2 - 1)).sum
    top_values := if val_counts.isEmpty then [] else most_common 10 val_counts }

/-- `DataAnalyzer._analyze_column`. -/
def analyze_column (col_info : ColumnInfo) (values : List CellValue) : ColumnStats :=
  if col_info.detected_type ∈ [DataType.INTEGER, .FLOAT, .CURRENCY, .PERCENTAGE] then
    compute_numeric_stats (baseColumnStats col_info values) values
  else if col_info.detected_type ∈ [DataType.TEXT, .EMAIL, .URL, .PHONE] then
    compute_text_stats (baseColumnStats col_info values) values
  else if col_info.detected_type = .BOOLEAN then
    compute_boolean_stats (baseColumnStats col_info values) values
  else if col_info.detected_type ∈ [DataType.DATE, .DATETIME] then
    compute_date_stats (baseColumnStats col_info values) values
  else baseColumnStats col_info values

/-- `str(v) if v is not None else ""` over a row. -/
def rowFingerprint (row : List CellValue) : List String :=
  row.map (fun v => match v with | CellValue.none => "" | v => pyStr v)

/-- One iteration of the duplicate/empty-row loop of `_analyze_sheet`:
state is (seen fingerprints, duplicate_rows, completely_empty_rows). -/
def dupScanStep (st : List (List String) × Nat × Nat) (row : List CellValue) :
    List (List String) × Nat × Nat :=
  let fp := rowFingerprint row
  let (seen, dups, empties) := st
  if fp.all (· = "") then (fp :: seen, dups, empties + 1)
  else if seen.contains fp then (fp :: seen, dups + 1, empties)
  else (fp :: seen, dups, empties)

/-- `DataAnalyzer._analyze_sheet`. -/
def analyze_sheet (sheet : SheetData) : SheetAnalysis :=
  let scan := sheet.rows.foldl dupScanStep ([], 0, 0)
  let duplicate_rows := scan.2.1
  let completely_empty_rows := scan.2.2
  let column_stats := sheet.columns.map (fun ci =>
    analyze_column ci (sheet.rows.map (fun r => r.getD ci.index CellValue.none)))
  let completeness_scores := column_stats.map ColumnStats.completeness
  let type_summary := sheet.columns.foldl
    (fun acc ci => bumpCount ci.detected_type acc) []
  let score : ℚ :=
    if completeness_scores.isEmpty then 0
    else
      let avg_completeness := completeness_scores.sum / (completeness_scores.length : ℚ)
      let dup_penalty : ℚ :=
        min ((duplicate_rows : ℚ) / (max sheet.row_count 1 : ℚ) * 100) 30
      max (avg_completeness - dup_penalty) 0
  { sheet_name := sheet.name
    row_count := sheet.row_count
    col_count := sheet.col_count
    column_stats := column_stats
    data_quality_score := score
    type_summary := type_summary
    duplicate_rows := duplicate_rows
    completely_empty_rows := completely_empty_rows }

/-- `DataAnalyzer.analyze`, with the wall clock of
`AnalysisResult.__init__` (`datetime.now().isoformat()`) as the explicit
`now` argument. -/
def analyze (now : String) (import_result : ImportResult) : AnalysisResult :=
  let sheets := import_result.sheets.map analyze_sheet
  let quality_scores := sheets.map SheetAnalysis.data_quality_score
  { file_name := import_result.file_name
    analysis_time := now
    sheets := sheets
    overall_quality_score :=
      if quality_scores.isEmpty then 0
      else quality_scores.sum / (quality_scores.length : ℚ)
    total_rows := import_result.total_rows
    total_columns := import_result.total_columns }

end DataAnalyzer

/-! ### Partiality-explicit analyzer

The Python analyzer can only raise at its partial primitives: sequence
subscripts (`nums_sorted[i]`, `row[col_info.index]`, `dates_sorted[0]`,
`[-1]`) and `min`/`max` of a possibly-empty list; every division is
syntactically guarded.  The `...E` functions below are the same code with
those primitives returning `Option` (`get?`, `getLast?`, `min?`, `max?`)
and failure propagated; `_compute_boolean_stats` has no partial primitive
and is reused as is.  Claim C7 is that on well-formed input nothing
fails. -/

namespace DataAnalyzer

def compute_numeric_statsE (stats : ColumnStats) (values : List CellValue) :
    Option ColumnStats :=
  let nums := values.filterMap to_numeric
  if nums.isEmpty then some stats
  else
    let nums_sorted := sortAsc nums
    let n := nums.length
    match nums_sorted.get? 0, nums_sorted.getLast? with
    | some mn, some mx =>
      let sum_v : ℚ := nums.sum
      let mean_v : ℚ := sum_v / n
      let median? : Option ℚ :=
        if n % 2 = 1 then nums_sorted.get? (n / 2)
        else
          match nums_sorted.get? (n / 2 - 1), nums_sorted.get? (n / 2) with
          | some a, some b => some ((a + b) / 2)
          | _, _ => Option.none
      match median? with
      | Option.none => Option.none
      | some median_v =>
        let variance_v : ℚ :=
          if n > 1 then (nums.map (fun x => (x - mean_v) ^ 2)).sum / ((n : ℚ) - 1)
          else 0
        let base := { stats with
          min_val := some mn
          max_val := some mx
          sum_val := some sum_v
          mean_val := some mean_v
          median_val := some median_v
          std_dev_sq := some variance_v }
        if n ≥ 4 then
          match nums_sorted.get? (n / 4), nums_sorted.get? (3 * n / 4) with
          | some q1, some q3 =>
            let iqr := q3 - q1
            let lower_bound := q1 - (3 / 2 : ℚ) * iqr
            let upper_bound := q3 + (3 / 2 : ℚ) * iqr
            let outliers := nums.filter (fun x => x < lower_bound || x > upper_bound)
            some { base with
              outlier_count := outliers.length
              has_outliers := outliers.length > 0 }
          | _, _ => Option.none
        else some base
    | _, _ => Option.none

def compute_text_statsE (stats : ColumnStats) (values : List CellValue) :
    Option ColumnStats :=
  let lengths := textLengths values
  if lengths.isEmpty then some stats
  else
    match lengths.min?, lengths.max? with
    | some mn, some mx =>
      some { stats with
        min_length := some mn
        max_length := some mx
        avg_length := some ((lengths.sum : ℚ) / lengths.length) }
    | _, _ => Option.none

def compute_date_statsE (stats : ColumnStats) (values : List CellValue) :
    Option ColumnStats :=
  let dates := values.filterMap to_date_sortable
  if dates.isEmpty then some stats
  else
    let dates_sorted := sortDt dates
    match dates_sorted.get? 0, dates_sorted.getLast? with
    | some e, some l =>
      some { stats with earliest := some (isoDt e), latest := some (isoDt l) }
    | _, _ => Option.none

def analyze_columnE (col_info : ColumnInfo) (values : List CellValue) :
    Option ColumnStats :=
  if col_info.detected_type ∈ [DataType.INTEGER, .FLOAT, .CURRENCY, .PERCENTAGE] then
    compute_numeric_statsE (baseColumnStats col_info values) values
  else if col_info.detected_type ∈ [DataType.TEXT, .EMAIL, .URL, .PHONE] then
    compute_text_statsE (baseColumnStats col_info values) values
  else if col_info.detected_type = .BOOLEAN then
    some (compute_boolean_stats (baseColumnStats col_info values) values)
  else if col_info.detected_type ∈ [DataType.DATE, .DATETIME] then
    compute_date_statsE (baseColumnStats col_info values) values
  else some (baseColumnStats col_info values)

def analyze_sheetE (sheet : SheetData) : Option SheetAnalysis := do
  let scan := sheet.rows.foldl dupScanStep ([], 0, 0)
  let column_stats ← sheet.columns.mapM (fun ci => do
    let col_values ← sheet.rows.mapM (fun r => r.get? ci.index)
    analyze_columnE ci col_values)
  let completeness_scores := column_stats.map ColumnStats.completeness
  let score : ℚ :=
    if completeness_scores.isEmpty then 0
    else
      let avg_completeness := completeness_scores.sum / (completeness_scores.length : ℚ)
      let dup_penalty : ℚ :=
        min ((scan.2.1 : ℚ) / (max sheet.row_count 1 : ℚ) * 100) 30
      max (avg_completeness - dup_penalty) 0
  pure
    { sheet_name := sheet.name
      row_count := sheet.row_count
      col_count := sheet.col_count
      column_stats := column_stats
      data_quality_score := score
      type_summary := sheet.columns.foldl (fun acc ci => bumpCount ci.detected_type acc) []
      duplicate_rows := scan.2.1
      completely_empty_rows := scan.2.2 }

def analyzeE (now : String) (import_result : ImportResult) : Option AnalysisResult := do
  let sheets ← import_result.sheets.mapM analyze_sheetE
  let quality_scores := sheets.map SheetAnalysis.data_quality_score
  pure
    { file_name := import_result.file_name
      analysis_time := now
      sheets := sheets
      overall_quality_score :=
        if quality_scores.isEmpty then 0
        else quality_scores.sum / (quality_scores.length : ℚ)
      total_rows := import_result.total_rows
      total_columns := import_result.total_columns }

end DataAnalyzer

/-- Well-formedness produced by the importer's rectangularization: every
row has exactly `col_count` cells and every column index is in range. -/
def SheetData.wellFormed (s : SheetData) : Prop :=
  (∀ row ∈ s.rows, row.length = s.col_count) ∧
  (∀ ci ∈ s.columns, ci.index < s.col_count)

def ImportResult.wellFormed (ir : ImportResult) : Prop :=
  ∀ s ∈ ir.sheets, s.wellFormed

/-! ### Serialization (`ColumnStats.to_dict`) -/

/-- Values of the key-value serialization produced by `to_dict`.
`jsqrt4 q` stands for `round(√q, 4)` — the source's rounded standard
deviation, kept symbolic because √ of a rational is irrational in
general. -/
inductive JVal where
  | null
  | jnat (n : Nat)
  | jrat (q : ℚ)
  | jstr (s : String)
  | jbool (b : Bool)
  | jsqrt4 (q : ℚ)
  | jarr (l : List JVal)
  | jobj (l : List (String × JVal))

/-- Python banker's rounding to an integer. -/
def roundHalfEven (q : ℚ) : Int :=
  let f := q.floor
  let r := q - f
  if r < 1 / 2 then f
  else if r > 1 / 2 then f + 1
  else if f % 2 = 0 then f else f + 1

/-- Python `round(q, k)` (exact-rational model of the float rounding). -/
def pyRound (k : Nat) (q : ℚ) : ℚ :=
  (roundHalfEven (q * 10 ^ k) : ℚ) / 10 ^ k

def jOptRat : Option ℚ → JVal
  | Option.none => JVal.null
  | some q => JVal.jrat q

def jOptRatRound (k : Nat) : Option ℚ → JVal
  | Option.none => JVal.null
  | some q => JVal.jrat (pyRound k q)

def jOptNat : Option Nat → JVal
  | Option.none => JVal.null
  | some n => JVal.jnat n

/-- `ColumnStats.to_dict`, key for key. -/
def ColumnStats.to_dict (s : ColumnStats) : List (String × JVal) :=
  let base : List (String × JVal) := [
    ("header", JVal.jstr s.header),
    ("data_type", JVal.jstr s.data_type.value),
    ("total_count", JVal.jnat s.total_count),
    ("non_empty_count", JVal.jnat s.non_empty_count),
    ("empty_count", JVal.jnat s.empty_count),
    ("unique_count", JVal.jnat s.unique_count),
    ("completeness", JVal.jrat (pyRound 2 s.completeness)),
    ("duplicate_count", JVal.jnat s.duplicate_count)]
  let base := base ++
    (if s.data_type ∈ [DataType.INTEGER, .FLOAT, .CURRENCY, .PERCENTAGE] then
      [("numeric_stats", JVal.jobj [
        ("min", jOptRat s.min_val),
        ("max", jOptRat s.max_val),
        ("sum", jOptRatRound 4 s.sum_val),
        ("mean", jOptRatRound 4 s.mean_val),
        ("median", jOptRat s.median_val),
        ("std_dev", match s.std_dev_sq with
          | Option.none => JVal.null
          | some v => JVal.jsqrt4 v),
        ("has_outliers", JVal.jbool s.has_outliers),
        ("outlier_count", JVal.jnat s.outlier_count)])]
    else [])
  let base := base ++
    (if s.data_type ∈ [DataType.TEXT, .EMAIL, .URL] then
      [("text_stats", JVal.jobj [
        ("min_length", jOptNat s.min_length),
        ("max_length", jOptNat s.max_length),
        ("avg_length", jOptRatRound 1 s.avg_length)])]
    else [])
  let base := base ++
    (if s.data_type = .BOOLEAN then
      [("boolean_stats", JVal.jobj [
        ("true_count", JVal.jnat s.true_count),
        ("false_count", JVal.jnat s.false_count),
        ("true_pct", if s.non_empty_count > 0
          then JVal.jrat (pyRound 1 ((s.true_count : ℚ) / (s.non_empty_count : ℚ) * 100))
          else JVal.jrat 0)])]
    else [])
  let base := base ++
    (if s.data_type ∈ [DataType.DATE, .DATETIME] then
      [("date_stats", JVal.jobj [
        ("earliest", match s.earliest with
          | Option.none => JVal.null | some v => JVal.jstr v),
        ("latest", match s.latest with
          | Option.none => JVal.null | some v => JVal.jstr v)])]
    else [])
  base ++
    (if s.top_values.isEmpty then []
     else [("top_values", JVal.jarr (s.top_values.map (fun vc =>
       JVal.jobj [("value", JVal.jstr vc.1), ("count", JVal.jnat vc.2)])))])

/-! ### Concrete sample inputs used to instantiate the theorems -/

/-- A ragged two-row sheet: header row of length 2, data row of length 1. -/
def sampleRowsRagged : List (List CellValue) :=
  [[.str "H", .str "I"], [.int 1]]

def sampleWb : List (String × List (List CellValue)) :=
  [("S", sampleRowsRagged)]

def sampleImport : ImportResult :=
  ExcelImporter.import_file "2024-01-01T00:00:00" sampleWb "f.xlsx"
    Option.none true Option.none

/-- The Age column of spec scenario A. -/
def sampleSheetA : SheetData :=
  process_sheet "A" [[.str "Age"], [.int 30], [.int 25], [.int 35], [.int 28], [.int 40]]
    true Option.none

/-- The outlier column of spec scenario D. -/
def outlierSample : List CellValue :=
  [.int 1, .int 2, .int 3, .int 4, .int 100]

def samplePhoneCol : ColumnInfo where
  index := 0
  letter := "A"
  header := "P"
  detected_type := .PHONE
  non_empty_count := 2
  empty_count := 0
  total_count := 2
  sample_values := []
  unique_count := 2
  type_counts := [(.PHONE, 2)]

def samplePhoneVals : List CellValue :=
  [.str "+1-555-0101", .str "(555) 123-4567"]

/-- A Percentage-typed column's raw values. -/
def pctSample : List CellValue := [.str "50%", .str "70%"]

/-- A numeric column with exactly one coercible value. -/
def singleSample : List CellValue := [CellValue.int 5]

/-! ## Theorems -/

/-! ### Helper lemmas -/

theorem padRow_length (n : Nat) (row : List CellValue) : (padRow n row).length = n := by
  simp [padRow]
  omega

theorem process_sheet_rows_length (name : String) (all_rows : List (List CellValue))
    (hh : Bool) (mr : Option Nat) :
    ∀ row ∈ (process_sheet name all_rows hh mr).rows,
      row.length = (process_sheet name all_rows hh mr).col_count := by
  cases all_rows with
  | nil => intro row hr; simp [process_sheet] at hr
  | cons first rest =>
    intro row hr
    simp only [process_sheet] at hr ⊢
    obtain ⟨r, _, rfl⟩ := List.mem_map.mp hr
    exact padRow_length _ _

theorem process_sheet_col_count (name : String) (all_rows : List (List CellValue))
    (hh : Bool) (mr : Option Nat) :
    (process_sheet name all_rows hh mr).col_count
      = (all_rows.map List.length).foldr max 0 := by
  cases all_rows <;> rfl

theorem compute_text_stats_min_length (st : ColumnStats) (vals : List CellValue) :
    (DataAnalyzer.compute_text_stats st vals).min_length
      = if (textLengths vals).isEmpty then st.min_length else (textLengths vals).min? := by
  simp only [DataAnalyzer.compute_text_stats]
  split <;> rfl

theorem compute_text_stats_max_length (st : ColumnStats) (vals : List CellValue) :
    (DataAnalyzer.compute_text_stats st vals).max_length
      = if (textLengths vals).isEmpty then st.max_length else (textLengths vals).max? := by
  simp only [DataAnalyzer.compute_text_stats]
  split <;> rfl

theorem compute_text_stats_avg_length (st : ColumnStats) (vals : List CellValue) :
    (DataAnalyzer.compute_text_stats st vals).avg_length
      = if (textLengths vals).isEmpty then st.avg_length
        else some (((textLengths vals).sum : ℚ) / ((textLengths vals).length : ℚ)) := by
  simp only [DataAnalyzer.compute_text_stats]
  split <;> rfl

theorem compute_text_stats_data_type (st : ColumnStats) (vals : List CellValue) :
    (DataAnalyzer.compute_text_stats st vals).data_type = st.data_type := by
  simp only [DataAnalyzer.compute_text_stats]
  split <;> rfl

theorem analyze_column_phone_eq (ci : ColumnInfo) (vals : List CellValue)
    (h : ci.detected_type = .PHONE) :
    DataAnalyzer.analyze_column ci vals
      = DataAnalyzer.compute_text_stats (DataAnalyzer.baseColumnStats ci vals) vals := by
  rw [DataAnalyzer.analyze_column, h]
  rw [if_neg (by decide), if_pos (by decide)]

theorem analyze_column_text_eq (ci : ColumnInfo) (vals : List CellValue)
    (h : ci.detected_type = .TEXT) :
    DataAnalyzer.analyze_column ci vals
      = DataAnalyzer.compute_text_stats (DataAnalyzer.baseColumnStats ci vals) vals := by
  rw [DataAnalyzer.analyze_column, h]
  rw [if_neg (by decide), if_pos (by decide)]

theorem baseColumnStats_retype (ci : ColumnInfo) (vals : List CellValue) (dt : DataType) :
    DataAnalyzer.baseColumnStats { ci with detected_type := dt } vals
      = { DataAnalyzer.baseColumnStats ci vals with data_type := dt } := rfl

theorem baseColumnStats_data_type (ci : ColumnInfo) (vals : List CellValue) :
    (DataAnalyzer.baseColumnStats ci vals).data_type = ci.detected_type := rfl

/-- A column record serialized with `data_type = PHONE` has no `text_stats`
entry: `to_dict` emits that key only for Text, Email and URL. -/
theorem to_dict_no_text_stats (s : ColumnStats) (h : s.data_type = .PHONE) :
    ((ColumnStats.to_dict s).map Prod.fst).contains "text_stats" = false := by
  simp only [ColumnStats.to_dict, h]
  rw [if_neg (by decide), if_neg (by decide), if_neg (by decide), if_neg (by decide)]
  split <;> simp

theorem outlierSample_nums : outlierSample.filterMap to_numeric = [1, 2, 3, 4, 100] := by
  norm_num [outlierSample, to_numeric, List.filterMap_cons]

theorem outlierSample_sorted :
    sortAsc (outlierSample.filterMap to_numeric) = [1, 2, 3, 4, 100] := by
  rw [outlierSample_nums]
  norm_num [sortAsc, insertAsc]

/-! ### Claim theorems -/

/-- C1: the cell classifier applies string rules in priority order: "50%"
is Percentage (though it also parses as a number), "$100" is Currency
(though its digits parse as an integer), and "true" in any letter case,
after trimming, is Boolean. -/
theorem claim1_classifier_precedence :
    detect_cell_type (.str "50%") = .PERCENTAGE ∧
    (pyFloat? "50".data).isSome = true ∧
    detect_cell_type (.str "$100") = .CURRENCY ∧
    (pyInt? "100".data).isSome = true ∧
    ∀ s : String, (pyStripList s.data).map Char.toLower = "true".data →
      detect_cell_type (.str s) = .BOOLEAN := by
  refine ⟨by decide, by decide, by decide, by decide, ?_⟩
  intro s h
  have hne : pyStripList s.data ≠ [] := by
    intro hnil
    rw [hnil] at h
    simp at h
  simp [detect_cell_type, hne, h]

/-- C1 witness: the boolean rule fires on the concrete string " TRUE ". -/
theorem claim1_classifier_precedence_witness :
    detect_cell_type (.str " TRUE ") = .BOOLEAN :=
  claim1_classifier_precedence.2.2.2.2 " TRUE " (by decide)

/-- C2: the column type resolver returns Float for {Integer:5, Float:3},
DateTime for {Date:2, DateTime:8}, Text for {Text:90, Integer:10} (80%
dominance), Mixed for {Text:4, Integer:3, Email:3}, Empty for {}, and
depends only on the histogram with Empty entries removed. -/
theorem claim2_resolver_vectors :
    resolve_column_type [(.INTEGER, 5), (.FLOAT, 3)] = .FLOAT ∧
    resolve_column_type [(.DATE, 2), (.DATETIME, 8)] = .DATETIME ∧
    resolve_column_type [(.TEXT, 90), (.INTEGER, 10)] = .TEXT ∧
    resolve_column_type [(.TEXT, 4), (.INTEGER, 3), (.EMAIL, 3)] = .MIXED ∧
    resolve_column_type [] = .EMPTY ∧
    ∀ h : List (DataType × Nat),
      resolve_column_type h
        = resolve_column_type (h.filter (fun kv => kv.1 ≠ DataType.EMPTY)) := by
  refine ⟨by decide, by decide, by decide, by decide, by decide, ?_⟩
  intro h
  simp only [resolve_column_type, List.filter_filter, Bool.and_self]

/-- C3: every sheet an import produces is rectangular — every stored row
has length exactly `col_count` — and `col_count` is the maximum row length
over all raw rows (header and data) of the sheet. -/
theorem claim3_rectangular :
    (∀ now wb fp sn hh mr, ∀ sheet ∈ (ExcelImporter.import_file now wb fp sn hh mr).sheets,
        ∀ row ∈ sheet.rows, row.length = sheet.col_count) ∧
    (∀ name all_rows hh mr,
        (process_sheet name all_rows hh mr).col_count
          = (all_rows.map List.length).foldr max 0) := by
  constructor
  · intro now wb fp sn hh mr sheet hs row hr
    simp only [ExcelImporter.import_file, List.mem_filterMap] at hs
    obtain ⟨nm, hnm, heq⟩ := hs
    obtain ⟨p, hp, rfl⟩ := Option.map_eq_some'.mp heq
    exact process_sheet_rows_length _ _ _ _ row hr
  · exact process_sheet_col_count

/-- C3 witness: in the ragged sample workbook the short data row is padded
to the sheet's column count. -/
theorem claim3_rectangular_witness :
    ([CellValue.int 1, CellValue.none] : List CellValue).length
      = (process_sheet "S" sampleRowsRagged true Option.none).col_count :=
  claim3_rectangular.1 "t" sampleWb "f.xlsx" Option.none true Option.none
    (process_sheet "S" sampleRowsRagged true Option.none) (by decide)
    [CellValue.int 1, CellValue.none] (by decide)

/-- C4 counterexample: `analyze` is not a pure function of the
ImportResult alone — `AnalysisResult.__init__` stamps `datetime.now()`, so
two runs at different instants differ (in `analysis_time`). -/
theorem claim4_counterexample :
    DataAnalyzer.analyze "2024-01-01T00:00:00" sampleImport ≠
      DataAnalyzer.analyze "2024-01-01T00:00:01" sampleImport := by
  intro h
  have h2 := congrArg AnalysisResult.analysis_time h
  simp only [DataAnalyzer.analyze] at h2
  exact absurd h2 (by decide)

/-- C4 amended: re-running `analyze` on the same ImportResult reproduces
every field except `analysis_time`, which records the invocation's wall
clock. -/
theorem claim4_amended (t1 t2 : String) (ir : ImportResult) :
    (DataAnalyzer.analyze t1 ir).file_name = (DataAnalyzer.analyze t2 ir).file_name ∧
    (DataAnalyzer.analyze t1 ir).sheets = (DataAnalyzer.analyze t2 ir).sheets ∧
    (DataAnalyzer.analyze t1 ir).overall_quality_score
      = (DataAnalyzer.analyze t2 ir).overall_quality_score ∧
    (DataAnalyzer.analyze t1 ir).total_rows = (DataAnalyzer.analyze t2 ir).total_rows ∧
    (DataAnalyzer.analyze t1 ir).total_columns = (DataAnalyzer.analyze t2 ir).total_columns ∧
    (DataAnalyzer.analyze t1 ir).analysis_time = t1 :=
  ⟨rfl, rfl, rfl, rfl, rfl, rfl⟩

/-- C5: for a sheet with at least one column, the quality score is
`max(0, averageColumnCompleteness − min(duplicateRows/max(rowCount,1)·100, 30))`;
the duplicate penalty is at most 30 and the score is never negative. -/
theorem claim5_quality_score (sheet : SheetData) (hcols : sheet.columns ≠ []) :
    (DataAnalyzer.analyze_sheet sheet).data_quality_score =
      max 0
        ((((DataAnalyzer.analyze_sheet sheet).column_stats.map ColumnStats.completeness).sum
            / (((DataAnalyzer.analyze_sheet sheet).column_stats.length : ℚ)))
          - min (((DataAnalyzer.analyze_sheet sheet).duplicate_rows : ℚ)
              / ((max (DataAnalyzer.analyze_sheet sheet).row_count 1 : Nat) : ℚ) * 100) 30) ∧
    min (((DataAnalyzer.analyze_sheet sheet).duplicate_rows : ℚ)
        / ((max (DataAnalyzer.analyze_sheet sheet).row_count 1 : Nat) : ℚ) * 100) 30 ≤ 30 ∧
    0 ≤ (DataAnalyzer.analyze_sheet sheet).data_quality_score := by
  have hne2 : (List.map ColumnStats.completeness (List.map (fun ci =>
      DataAnalyzer.analyze_column ci
        (List.map (fun r => r.getD ci.index CellValue.none) sheet.rows))
      sheet.columns)).isEmpty = false := by
    simp [List.isEmpty_iff, hcols]
  refine ⟨?_, min_le_right _ _, ?_⟩
  · simp only [DataAnalyzer.analyze_sheet, hne2, Bool.false_eq_true, if_false,
      List.length_map]
    push_cast
    rw [max_comm]
  · simp only [DataAnalyzer.analyze_sheet, hne2, Bool.false_eq_true, if_false]
    exact le_max_right _ _

/-- C5 witness: the scenario-A sheet has a column and a nonnegative score. -/
theorem claim5_quality_score_witness :
    sampleSheetA.columns ≠ [] ∧
    0 ≤ (DataAnalyzer.analyze_sheet sampleSheetA).data_quality_score :=
  ⟨by decide, (claim5_quality_score sampleSheetA (by decide)).2.2⟩

/-- C6: for N ≥ 4 coercible values, outliers are counted by the positional
Tukey rule (Q1 at sorted index ⌊N/4⌋, Q3 at ⌊3N/4⌋, bounds Q1−1.5·IQR and
Q3+1.5·IQR); on [1,2,3,4,100]: Q1=2, Q3=4, upper bound 7, and exactly the
value 100 is flagged. -/
theorem claim6_outliers :
    (∀ stats values,
      let nums := values.filterMap to_numeric
      let n := nums.length
      let q1 := (sortAsc nums).getD (n / 4) 0
      let q3 := (sortAsc nums).getD (3 * n / 4) 0
      let iqr := q3 - q1
      let outliers := nums.filter (fun x =>
        x < q1 - (3 / 2 : ℚ) * iqr || x > q3 + (3 / 2 : ℚ) * iqr)
      4 ≤ n →
        (DataAnalyzer.compute_numeric_stats stats values).outlier_count = outliers.length ∧
        (DataAnalyzer.compute_numeric_stats stats values).has_outliers
          = decide (0 < outliers.length)) ∧
    ((sortAsc (outlierSample.filterMap to_numeric)).getD (5 / 4) 0 = 2 ∧
      (sortAsc (outlierSample.filterMap to_numeric)).getD (3 * 5 / 4) 0 = 4 ∧
      (4 : ℚ) + (3 / 2 : ℚ) * (4 - 2) = 7 ∧
      (outlierSample.filterMap to_numeric).filter (fun x =>
          x < 2 - (3 / 2 : ℚ) * 2 || x > 4 + (3 / 2 : ℚ) * 2) = [100] ∧
      (DataAnalyzer.compute_numeric_stats (ColumnStats.init "V" .INTEGER)
          outlierSample).outlier_count = 1 ∧
      (DataAnalyzer.compute_numeric_stats (ColumnStats.init "V" .INTEGER)
          outlierSample).has_outliers = true) := by
  have hgen : ∀ stats values,
      let nums := values.filterMap to_numeric
      let n := nums.length
      let q1 := (sortAsc nums).getD (n / 4) 0
      let q3 := (sortAsc nums).getD (3 * n / 4) 0
      let iqr := q3 - q1
      let outliers := nums.filter (fun x =>
        x < q1 - (3 / 2 : ℚ) * iqr || x > q3 + (3 / 2 : ℚ) * iqr)
      4 ≤ n →
        (DataAnalyzer.compute_numeric_stats stats values).outlier_count = outliers.length ∧
        (DataAnalyzer.compute_numeric_stats stats values).has_outliers
          = decide (0 < outliers.length) := by
    intro stats values
    dsimp only
    intro h
    have hne : values.filterMap to_numeric ≠ [] := by
      intro hnil
      rw [hnil] at h
      simp at h
    have hempty : (values.filterMap to_numeric).isEmpty = false := by
      simpa [List.isEmpty_iff] using hne
    rw [DataAnalyzer.compute_numeric_stats]
    simp only [hempty, Bool.false_eq_true, if_false]
    rw [if_pos h]
    exact ⟨rfl, rfl⟩
  refine ⟨hgen, ?_, ?_, by norm_num, ?_, ?_, ?_⟩
  · rw [outlierSample_sorted]; rfl
  · rw [outlierSample_sorted]; rfl
  · rw [outlierSample_nums]; norm_num [List.filter]
  · have h5 : 4 ≤ (outlierSample.filterMap to_numeric).length := by
      rw [outlierSample_nums]; norm_num
    have hoc := (hgen (ColumnStats.init "V" .INTEGER) outlierSample h5).1
    rw [hoc, outlierSample_sorted, outlierSample_nums]
    norm_num [List.filter]
  · have h5 : 4 ≤ (outlierSample.filterMap to_numeric).length := by
      rw [outlierSample_nums]; norm_num
    have hob := (hgen (ColumnStats.init "V" .INTEGER) outlierSample h5).2
    rw [hob, outlierSample_sorted, outlierSample_nums]
    norm_num [List.filter]

/-- C6 witness: the Tukey rule instantiated on scenario D's column. -/
theorem claim6_outliers_witness :
    (DataAnalyzer.compute_numeric_stats (ColumnStats.init "V" .INTEGER)
        outlierSample).outlier_count
      = ((outlierSample.filterMap to_numeric).filter (fun x =>
          x < (sortAsc (outlierSample.filterMap to_numeric)).getD
                ((outlierSample.filterMap to_numeric).length / 4) 0
              - (3 / 2 : ℚ) * ((sortAsc (outlierSample.filterMap to_numeric)).getD
                  (3 * (outlierSample.filterMap to_numeric).length / 4) 0
                - (sortAsc (outlierSample.filterMap to_numeric)).getD
                    ((outlierSample.filterMap to_numeric).length / 4) 0)
            || x > (sortAsc (outlierSample.filterMap to_numeric)).getD
                  (3 * (outlierSample.filterMap to_numeric).length / 4) 0
                + (3 / 2 : ℚ) * ((sortAsc (outlierSample.filterMap to_numeric)).getD
                    (3 * (outlierSample.filterMap to_numeric).length / 4) 0
                  - (sortAsc (outlierSample.filterMap to_numeric)).getD
                      ((outlierSample.filterMap to_numeric).length / 4) 0))).length :=
  (claim6_outliers.1 (ColumnStats.init "V" .INTEGER) outlierSample (by decide)).1

/-- C8 counterexample: a header cell holding the blank string is NOT
replaced by an auto label — the source only auto-labels `None` cells. -/
theorem claim8_counterexample :
    (process_sheet "S" [[CellValue.str ""], [CellValue.int 1]] true Option.none).headers
      = [""] ∧
    "" ≠ "Column_" ++ get_column_letter 1 := ⟨by decide, by decide⟩

/-- C8 amended: with `hasHeader`, a missing (None, including
beyond-row-end) header cell at position i gets the auto label
`Column_<letter(i+1)>`; any present cell — blank or not — is stringified
and used as-is. -/
theorem claim8_amended (name : String) (first : List CellValue)
    (rest : List (List CellValue)) (mr : Option Nat) (i : Nat)
    (hi : i < ((first :: rest).map List.length).foldr max 0) :
    (process_sheet name (first :: rest) true mr).headers.getD i "" =
      (if first.getD i CellValue.none = CellValue.none
       then "Column_" ++ get_column_letter (i + 1)
       else pyStr (first.getD i CellValue.none)) := by
  show ((process_sheet name (first :: rest) true mr).headers.get? i).getD "" = _
  simp only [process_sheet, if_true]
  rw [List.get?_map, List.get?_range hi]
  simp

/-- C8 witness: a missing header cell in column 2 gets label Column_B. -/
theorem claim8_amended_witness :
    (process_sheet "S" [[CellValue.str "", CellValue.none, CellValue.str "X"],
        [CellValue.int 1, CellValue.int 2, CellValue.int 3]] true Option.none).headers.getD 1 ""
      = (if ([CellValue.str "", CellValue.none, CellValue.str "X"] : List CellValue).getD 1
            CellValue.none = CellValue.none
         then "Column_" ++ get_column_letter 2
         else pyStr (([CellValue.str "", CellValue.none, CellValue.str "X"] :
            List CellValue).getD 1 CellValue.none)) :=
  claim8_amended "S" [CellValue.str "", CellValue.none, CellValue.str "X"]
    [[CellValue.int 1, CellValue.int 2, CellValue.int 3]] Option.none 1 (by decide)

/-- C9 counterexample: a Phone column gets text statistics computed
(min_length = 11 here) but its serialized form has NO `text_stats` key —
`to_dict` emits that key only for Text, Email and URL. -/
theorem claim9_counterexample :
    (DataAnalyzer.analyze_column samplePhoneCol samplePhoneVals).min_length = some 11 ∧
    ((ColumnStats.to_dict (DataAnalyzer.analyze_column samplePhoneCol
        samplePhoneVals)).map Prod.fst).contains "text_stats" = false :=
  ⟨by decide, by decide⟩

/-- C9 amended: a Phone column's text statistics are computed exactly as
for a Text column over the same values, but the serialized (key-value)
representation omits the `text_stats` entry for Phone columns. -/
theorem claim9_amended (ci : ColumnInfo) (values : List CellValue)
    (hph : ci.detected_type = .PHONE) :
    ((DataAnalyzer.analyze_column ci values).min_length
        = (DataAnalyzer.analyze_column { ci with detected_type := .TEXT } values).min_length ∧
      (DataAnalyzer.analyze_column ci values).max_length
        = (DataAnalyzer.analyze_column { ci with detected_type := .TEXT } values).max_length ∧
      (DataAnalyzer.analyze_column ci values).avg_length
        = (DataAnalyzer.analyze_column { ci with detected_type := .TEXT } values).avg_length) ∧
    ((ColumnStats.to_dict (DataAnalyzer.analyze_column ci values)).map
        Prod.fst).contains "text_stats" = false := by
  rw [analyze_column_phone_eq ci values hph, analyze_column_text_eq _ values rfl]
  refine ⟨⟨?_, ?_, ?_⟩, ?_⟩
  · rw [compute_text_stats_min_length, compute_text_stats_min_length]
    split <;> rfl
  · rw [compute_text_stats_max_length, compute_text_stats_max_length]
    split <;> rfl
  · rw [compute_text_stats_avg_length, compute_text_stats_avg_length]
    split <;> rfl
  · exact to_dict_no_text_stats _ (by
      rw [compute_text_stats_data_type, baseColumnStats_data_type, hph])

/-- C9 witness: the amended statement at the concrete phone column. -/
theorem claim9_amended_witness :
    ((ColumnStats.to_dict (DataAnalyzer.analyze_column samplePhoneCol
        samplePhoneVals)).map Prod.fst).contains "text_stats" = false :=
  (claim9_amended samplePhoneCol samplePhoneVals rfl).2

/-! ### Character-class lemmas for the numeric-coercion claim -/

theorem digit_ne {c w : Char} (h : isDigitC c = true) (hw : isDigitC w = false) :
    c ≠ w := by
  rintro rfl
  rw [h] at hw
  exact absurd hw (by simp)

theorem digit_decide_ne {c w : Char} (h : isDigitC c = true) (hw : isDigitC w = false) :
    decide (c = w) = false := by
  simp only [decide_eq_false_iff_not]
  exact digit_ne h hw

theorem digit_decide_ne' {c w : Char} (h : isDigitC c = true) (hw : isDigitC w = false) :
    decide (some c = some w) = false := by
  simp only [decide_eq_false_iff_not, Option.some.injEq]
  exact digit_ne h hw

theorem digit_not_ws {c : Char} (h : isDigitC c = true) : isPyWs c = false := by
  unfold isPyWs
  rw [digit_decide_ne h (by decide), digit_decide_ne h (by decide),
    digit_decide_ne h (by decide), digit_decide_ne h (by decide),
    digit_decide_ne h (by decide), digit_decide_ne h (by decide)]
  rfl

theorem digit_not_currency {c : Char} (h : isDigitC c = true) :
    isCurrencySym c = false := by
  unfold isCurrencySym
  rw [digit_decide_ne h (by decide), digit_decide_ne h (by decide),
    digit_decide_ne h (by decide), digit_decide_ne h (by decide),
    digit_decide_ne h (by decide)]
  rfl

theorem dropWhile_eq_self_of {α : Type} (p : α → Bool) (l : List α)
    (h : ∀ c ∈ l, p c = false) : l.dropWhile p = l := by
  cases l with
  | nil => rfl
  | cons a t =>
    rw [List.dropWhile_cons, h a (by simp)]
    simp

theorem pyStripList_eq_self {cs : List Char} (h : ∀ c ∈ cs, isPyWs c = false) :
    pyStripList cs = cs := by
  unfold pyStripList
  rw [dropWhile_eq_self_of _ _ h]
  rw [dropWhile_eq_self_of _ _ (fun c hc => h c (List.mem_reverse.mp hc))]
  exact List.reverse_reverse cs

theorem digitsUAux_all_digits {ds : List Char} (h : ∀ c ∈ ds, isDigitC c = true) :
    digitsUAux ds = (ds, []) := by
  induction ds with
  | nil => rfl
  | cons c cs ih =>
    cases cs with
    | nil => rw [digitsUAux, if_pos (h c (by simp))]
    | cons d cs2 =>
      rw [digitsUAux, if_pos (h c (by simp))]
      rw [ih (fun x hx => h x (by simp [hx]))]

theorem parseDigitsU_all_digits {ds : List Char} (hne : ds ≠ [])
    (h : ∀ c ∈ ds, isDigitC c = true) : parseDigitsU ds = some (ds, []) := by
  cases ds with
  | nil => exact absurd rfl hne
  | cons c cs =>
    rw [parseDigitsU, if_pos (h c (by simp))]
    rw [digitsUAux_all_digits h]

theorem parseMantissa_all_digits {ds : List Char} (hne : ds ≠ [])
    (h : ∀ c ∈ ds, isDigitC c = true) : parseMantissa ds = some (ds, [], []) := by
  cases ds with
  | nil => exact absurd rfl hne
  | cons c cs =>
    rw [parseMantissa]
    rw [if_neg (digit_ne (h c (by simp)) (show isDigitC '.' = false by decide))]
    rw [parseDigitsU_all_digits hne h]
    rfl

/-- `float(...)` on a nonempty run of plain digits reads its decimal value. -/
theorem pyFloat?_all_digits {ds : List Char} (hne : ds ≠ [])
    (h : ∀ c ∈ ds, isDigitC c = true) : pyFloat? ds = some ((digitsVal ds : ℚ)) := by
  rw [pyFloat?]
  rw [pyStripList_eq_self (fun c hc => digit_not_ws (h c hc))]
  cases ds with
  | nil => exact absurd rfl hne
  | cons c cs =>
    have hc := h c (by simp)
    have h1 : (c :: cs).head? = some c := rfl
    simp only [h1]
    have hplus : (decide (some c = some '+') || decide (some c = some '-')) = false := by
      rw [digit_decide_ne' hc (show isDigitC '+' = false by decide),
        digit_decide_ne' hc (show isDigitC '-' = false by decide)]
      rfl
    rw [if_neg (show ¬(some c = some '-') from fun heq =>
        digit_ne hc (show isDigitC '-' = false by decide) (Option.some.inj heq))]
    rw [hplus]
    simp only [Bool.false_eq_true, if_false]
    rw [parseMantissa_all_digits hne h]
    have he : parseExpOpt ([] : List Char) = some (0, []) := rfl
    dsimp only
    rw [he]
    dsimp only
    congr 1
    have hz : pow10Z 0 = 1 := rfl
    rw [hz]
    simp [digitsVal]

theorem pct_chars {ds : List Char} (h : ∀ c ∈ ds, isDigitC c = true) :
    ∀ c ∈ ds ++ ['%'], isDigitC c = true ∨ c = '%' := by
  intro c hc
  rcases List.mem_append.mp hc with hd | hp
  · exact Or.inl (h c hd)
  · simp at hp
    exact Or.inr hp

theorem rstripChar_digits_pct {ds : List Char} (h : ∀ c ∈ ds, isDigitC c = true) :
    rstripChar '%' (ds ++ ['%']) = ds := by
  unfold rstripChar
  rw [List.reverse_append]
  simp only [List.reverse_cons, List.reverse_nil, List.nil_append, List.singleton_append]
  rw [List.dropWhile_cons]
  rw [if_pos (by decide)]
  rw [dropWhile_eq_self_of _ _ (fun c hc =>
    digit_decide_ne (h c (List.mem_reverse.mp hc)) (show isDigitC '%' = false by decide))]
  exact List.reverse_reverse ds

/-- `_to_numeric` on a digit run with a trailing `%` yields the digits'
face value: the `%` is stripped, not interpreted as division by 100. -/
theorem to_numeric_pct_digits {ds : List Char} (hne : ds ≠ [])
    (h : ∀ c ∈ ds, isDigitC c = true) :
    to_numeric (CellValue.str (String.mk (ds ++ ['%']))) = some ((digitsVal ds : ℚ)) := by
  have hmix := pct_chars h
  have hnw : ∀ c ∈ ds ++ ['%'], isPyWs c = false := by
    intro c hc
    rcases hmix c hc with hd | rfl
    · exact digit_not_ws hd
    · decide
  rw [to_numeric]
  dsimp only
  rw [pyStripList_eq_self hnw]
  rw [List.filter_eq_self.mpr (fun c hc => by
    rcases hmix c (List.mem_filter.mp hc).1 with hd | rfl
    · rw [digit_not_currency hd]; rfl
    · decide)]
  rw [List.filter_eq_self.mpr (fun c hc => by
    rcases hmix c hc with hd | rfl
    · exact decide_eq_true (digit_ne hd (show isDigitC ',' = false by decide))
    · decide)]
  rw [rstripChar_digits_pct h]
  rw [pyStripList_eq_self (fun c hc => digit_not_ws (h c hc))]
  rw [pyFloat?_all_digits hne h]

theorem to_numeric_50pct : to_numeric (CellValue.str "50%") = some 50 := by
  have h := @to_numeric_pct_digits ['5', '0'] (by decide) (by decide)
  have hs : String.mk (['5', '0'] ++ ['%']) = "50%" := by decide
  rw [hs] at h
  rw [h]
  have hval : digitsVal ['5', '0'] = 50 := rfl
  rw [hval]
  norm_num

theorem to_numeric_70pct : to_numeric (CellValue.str "70%") = some 70 := by
  have h := @to_numeric_pct_digits ['7', '0'] (by decide) (by decide)
  have hs : String.mk (['7', '0'] ++ ['%']) = "70%" := by decide
  rw [hs] at h
  rw [h]
  have hval : digitsVal ['7', '0'] = 70 := rfl
  rw [hval]
  norm_num

theorem pctSample_nums : pctSample.filterMap to_numeric = [50, 70] := by
  rw [pctSample, List.filterMap_cons, to_numeric_50pct]
  rw [List.filterMap_cons, to_numeric_70pct]
  rfl

/-- C10: numeric coercion reads a percentage string at face value —
`"<digits>%"` coerces to the digits' value (50, not 0.5) — so the numeric
statistics of a Percentage column are in percentage points: for the
column ["50%","70%"], min 50, max 70, sum 120, mean 60, median 60 and
variance 200 (std dev √200), all in points. -/
theorem claim10_percentage_face_value :
    (∀ ds : List Char, ds ≠ [] → (∀ c ∈ ds, isDigitC c = true) →
      to_numeric (CellValue.str (String.mk (ds ++ ['%']))) = some ((digitsVal ds : ℚ))) ∧
    to_numeric (CellValue.str "50%") = some 50 ∧
    ((DataAnalyzer.compute_numeric_stats (ColumnStats.init "P" .PERCENTAGE)
        pctSample).min_val = some 50 ∧
      (DataAnalyzer.compute_numeric_stats (ColumnStats.init "P" .PERCENTAGE)
          pctSample).max_val = some 70 ∧
      (DataAnalyzer.compute_numeric_stats (ColumnStats.init "P" .PERCENTAGE)
          pctSample).sum_val = some 120 ∧
      (DataAnalyzer.compute_numeric_stats (ColumnStats.init "P" .PERCENTAGE)
          pctSample).mean_val = some 60 ∧
      (DataAnalyzer.compute_numeric_stats (ColumnStats.init "P" .PERCENTAGE)
          pctSample).median_val = some 60 ∧
      (DataAnalyzer.compute_numeric_stats (ColumnStats.init "P" .PERCENTAGE)
          pctSample).std_dev_sq = some 200) := by
  refine ⟨fun ds h1 h2 => to_numeric_pct_digits h1 h2, to_numeric_50pct, ?_⟩
  rw [DataAnalyzer.compute_numeric_stats]
  rw [pctSample_nums]
  have hsorted : sortAsc [50, 70] = [(50 : ℚ), 70] := by
    norm_num [sortAsc, insertAsc]
  rw [hsorted]
  norm_num [List.getD]

/-! ### Partiality lemmas for the totality claim -/

theorem insertAsc_length (x : ℚ) (l : List ℚ) :
    (insertAsc x l).length = l.length + 1 := by
  induction l with
  | nil => rfl
  | cons y ys ih =>
    rw [insertAsc]
    split
    · rfl
    · simp [ih]

theorem sortAsc_length (l : List ℚ) : (sortAsc l).length = l.length := by
  induction l with
  | nil => rfl
  | cons x xs ih =>
    show (insertAsc x (sortAsc xs)).length = xs.length + 1
    rw [insertAsc_length, ih]

theorem get?_eq_some_getD {α : Type} (l : List α) (d : α) (i : Nat)
    (h : i < l.length) : l.get? i = some (l.getD i d) := by
  induction l generalizing i with
  | nil => simp at h
  | cons a t ih =>
    cases i with
    | zero => rfl
    | succ j => exact ih j (Nat.lt_of_succ_lt_succ h)

theorem getLast?_eq_some_getD {α : Type} (l : List α) (d : α) (h : l ≠ []) :
    l.getLast? = some (l.getD (l.length - 1) d) := by
  rw [List.getLast?_eq_get?]
  exact get?_eq_some_getD l d _ (by
    have := List.length_pos.mpr h
    omega)

theorem mapM_get?_eq (rows : List (List CellValue)) (i : Nat)
    (h : ∀ r ∈ rows, i < r.length) :
    rows.mapM (fun r => r.get? i)
      = some (rows.map (fun r => r.getD i CellValue.none)) := by
  induction rows with
  | nil => rfl
  | cons r rs ih =>
    rw [List.mapM_cons]
    rw [get?_eq_some_getD r CellValue.none i (h r (by simp))]
    rw [ih (fun x hx => h x (by simp [hx]))]
    rfl

theorem compute_numeric_statsE_eq (st : ColumnStats) (vals : List CellValue) :
    DataAnalyzer.compute_numeric_statsE st vals
      = some (DataAnalyzer.compute_numeric_stats st vals) := by
  rw [DataAnalyzer.compute_numeric_statsE, DataAnalyzer.compute_numeric_stats]
  by_cases hemp : (vals.filterMap to_numeric).isEmpty
  · simp only [hemp, if_true]
  · have hne : vals.filterMap to_numeric ≠ [] := by
      simpa [List.isEmpty_iff] using hemp
    have hpos : 0 < (vals.filterMap to_numeric).length := List.length_pos.mpr hne
    have hslen : (sortAsc (vals.filterMap to_numeric)).length
        = (vals.filterMap to_numeric).length := sortAsc_length _
    have hsne : sortAsc (vals.filterMap to_numeric) ≠ [] := by
      intro h0
      rw [h0] at hslen
      simp only [List.length_nil] at hslen
      omega
    have hget : ∀ i, i < (vals.filterMap to_numeric).length →
        (sortAsc (vals.filterMap to_numeric)).get? i
          = some ((sortAsc (vals.filterMap to_numeric)).getD i 0) :=
      fun i hi => get?_eq_some_getD _ 0 i (by rw [hslen]; exact hi)
    simp only [hemp, Bool.false_eq_true, if_false]
    rw [hget 0 hpos, getLast?_eq_some_getD _ 0 hsne]
    dsimp only
    by_cases hodd : (vals.filterMap to_numeric).length % 2 = 1
    · rw [if_pos hodd, if_pos hodd]
      rw [hget _ (by omega)]
      dsimp only
      by_cases h4 : (vals.filterMap to_numeric).length ≥ 4
      · rw [if_pos h4, if_pos h4]
        rw [hget _ (by omega), hget _ (by omega)]
      · rw [if_neg h4, if_neg h4]
    · rw [if_neg hodd, if_neg hodd]
      have h2 : 2 ≤ (vals.filterMap to_numeric).length := by omega
      rw [hget _ (by omega), hget _ (by omega)]
      dsimp only
      by_cases h4 : (vals.filterMap to_numeric).length ≥ 4
      · rw [if_pos h4, if_pos h4]
        rw [hget _ (by omega), hget _ (by omega)]
      · rw [if_neg h4, if_neg h4]

theorem compute_text_statsE_eq (st : ColumnStats) (vals : List CellValue) :
    DataAnalyzer.compute_text_statsE st vals
      = some (DataAnalyzer.compute_text_stats st vals) := by
  rw [DataAnalyzer.compute_text_statsE, DataAnalyzer.compute_text_stats]
  by_cases hemp : (textLengths vals).isEmpty
  · simp only [hemp, if_true]
  · have hne : textLengths vals ≠ [] := by
      simpa [List.isEmpty_iff] using hemp
    simp only [hemp, Bool.false_eq_true, if_false]
    match hl : textLengths vals with
    | [] => exact absurd hl hne
    | a :: as =>
      have hmin : (a :: as).min? = some (as.foldl min a) := rfl
      have hmax : (a :: as).max? = some (as.foldl max a) := rfl
      rw [hmin, hmax]

theorem insertDt_length (x : DtTuple) (l : List DtTuple) :
    (insertDt x l).length = l.length + 1 := by
  induction l with
  | nil => rfl
  | cons y ys ih =>
    rw [insertDt]
    split
    · rfl
    · simp [ih]

theorem sortDt_length (l : List DtTuple) : (sortDt l).length = l.length := by
  induction l with
  | nil => rfl
  | cons x xs ih =>
    show (insertDt x (sortDt xs)).length = xs.length + 1
    rw [insertDt_length, ih]

theorem compute_date_statsE_eq (st : ColumnStats) (vals : List CellValue) :
    DataAnalyzer.compute_date_statsE st vals
      = some (DataAnalyzer.compute_date_stats st vals) := by
  rw [DataAnalyzer.compute_date_statsE, DataAnalyzer.compute_date_stats]
  by_cases hemp : (vals.filterMap to_date_sortable).isEmpty
  · simp only [hemp, if_true]
  · have hne : vals.filterMap to_date_sortable ≠ [] := by
      simpa [List.isEmpty_iff] using hemp
    have hpos : 0 < (vals.filterMap to_date_sortable).length := List.length_pos.mpr hne
    have hslen : (sortDt (vals.filterMap to_date_sortable)).length
        = (vals.filterMap to_date_sortable).length := sortDt_length _
    have hsne : sortDt (vals.filterMap to_date_sortable) ≠ [] := by
      intro h0
      rw [h0] at hslen
      simp only [List.length_nil] at hslen
      omega
    simp only [hemp, Bool.false_eq_true, if_false]
    rw [get?_eq_some_getD _ (0, 0, 0, 0, 0, 0) 0 (by omega),
      getLast?_eq_some_getD _ (0, 0, 0, 0, 0, 0) hsne]

theorem analyze_columnE_eq (ci : ColumnInfo) (vals : List CellValue) :
    DataAnalyzer.analyze_columnE ci vals
      = some (DataAnalyzer.analyze_column ci vals) := by
  rw [DataAnalyzer.analyze_columnE, DataAnalyzer.analyze_column]
  split_ifs with h1 h2 h3 h4
  · exact compute_numeric_statsE_eq _ _
  · exact compute_text_statsE_eq _ _
  · rfl
  · exact compute_date_statsE_eq _ _
  · rfl

theorem mapM_analyze_columnE (rows : List (List CellValue)) (cols : List ColumnInfo)
    (h : ∀ ci ∈ cols, ∀ r ∈ rows, ci.index < r.length) :
    cols.mapM (fun ci => do
        let col_values ← rows.mapM (fun r => r.get? ci.index)
        DataAnalyzer.analyze_columnE ci col_values)
      = some (cols.map (fun ci =>
          DataAnalyzer.analyze_column ci
            (rows.map (fun r => r.getD ci.index CellValue.none)))) := by
  induction cols with
  | nil => rfl
  | cons c cs ih =>
    rw [List.mapM_cons]
    show (do
      let x ← (do
        let col_values ← rows.mapM (fun (r : List CellValue) => r.get? c.index)
        DataAnalyzer.analyze_columnE c col_values)
      let xs ← cs.mapM (fun (ci : ColumnInfo) => do
        let col_values ← rows.mapM (fun (r : List CellValue) => r.get? ci.index)
        DataAnalyzer.analyze_columnE ci col_values)
      pure (x :: xs)) = _
    rw [mapM_get?_eq rows c.index (fun r hr => h c (by simp) r hr)]
    rw [ih (fun ci hci r hr => h ci (by simp [hci]) r hr)]
    simp only [Option.bind_some, Option.some_bind, bind, analyze_columnE_eq]
    rfl

theorem analyze_sheetE_eq (sheet : SheetData) (hwf : sheet.wellFormed) :
    DataAnalyzer.analyze_sheetE sheet = some (DataAnalyzer.analyze_sheet sheet) := by
  have hidx : ∀ ci ∈ sheet.columns, ∀ r ∈ sheet.rows, ci.index < r.length := by
    intro ci hci r hr
    rw [hwf.1 r hr]
    exact hwf.2 ci hci
  rw [DataAnalyzer.analyze_sheetE, DataAnalyzer.analyze_sheet]
  rw [mapM_analyze_columnE sheet.rows sheet.columns hidx]
  rfl

theorem mapM_analyze_sheetE (l : List SheetData) (h : ∀ s ∈ l, s.wellFormed) :
    l.mapM DataAnalyzer.analyze_sheetE = some (l.map DataAnalyzer.analyze_sheet) := by
  induction l with
  | nil => rfl
  | cons s ss ih =>
    rw [List.mapM_cons]
    rw [analyze_sheetE_eq s (h s (by simp))]
    rw [ih (fun x hx => h x (by simp [hx]))]
    rfl

/-- C7: the analyzer is total over every well-formed (rectangular)
ImportResult — the partiality-explicit analyzer never fails on such input
and agrees with the total embedding — and the sample standard deviation of
a column with exactly one coercible numeric value is 0. -/
theorem claim7_totality :
    (∀ now ir, ImportResult.wellFormed ir →
      DataAnalyzer.analyzeE now ir = some (DataAnalyzer.analyze now ir)) ∧
    (∀ stats values, (values.filterMap to_numeric).length = 1 →
      (DataAnalyzer.compute_numeric_stats stats values).std_dev_sq = some 0) := by
  constructor
  · intro now ir hwf
    rw [DataAnalyzer.analyzeE, DataAnalyzer.analyze]
    rw [mapM_analyze_sheetE ir.sheets hwf]
    rfl
  · intro stats values h1
    have hemp : (values.filterMap to_numeric).isEmpty = false := by
      cases hl : values.filterMap to_numeric with
      | nil => rw [hl] at h1; simp at h1
      | cons a t => rfl
    rw [DataAnalyzer.compute_numeric_stats]
    simp only [hemp, Bool.false_eq_true, if_false]
    rw [if_neg (by omega : ¬ (values.filterMap to_numeric).length ≥ 4)]
    show some (if (values.filterMap to_numeric).length > 1 then _ else 0) = some 0
    rw [if_neg (by omega)]

/-- C7 witness: the analyzer succeeds on the concrete sample import, and
the one-value column has standard deviation 0. -/
theorem claim7_totality_witness :
    DataAnalyzer.analyzeE "t" sampleImport = some (DataAnalyzer.analyze "t" sampleImport) ∧
    (DataAnalyzer.compute_numeric_stats (ColumnStats.init "A" .INTEGER)
        singleSample).std_dev_sq = some 0 :=
  ⟨claim7_totality.1 "t" sampleImport (by
      unfold ImportResult.wellFormed SheetData.wellFormed
      decide),
    claim7_totality.2 (ColumnStats.init "A" .INTEGER) singleSample (by decide)⟩

/-- C10 witness: the face-value rule at the concrete digit run "50". -/
theorem claim10_percentage_face_value_witness :
    to_numeric (CellValue.str (String.mk (['5', '0'] ++ ['%'])))
      = some ((digitsVal ['5', '0'] : ℚ)) :=
  claim10_percentage_face_value.1 ['5', '0'] (by decide) (by decide)

end ExcelReport
